import Mathlib

set_option maxRecDepth 10000

/-!
Verification of the StockScreener RAG pipeline (Python sources under
`app/src`).  Each Python function relevant to the specification is given a
shallow embedding: pure string manipulation becomes Lean string functions,
database / LLM collaborators become explicit oracle parameters, and the
side effect of invoking a backend is recorded in an explicit call trace.
-/

namespace StockScreener

/-! ## Basic string helpers

Python's `str.upper`, `str.strip`, `in` (substring test) and
`", ".join(...)` are modelled explicitly.  All inputs handled by the
pipeline's safety checks are ASCII, where `Char.toUpper` agrees with
Python's `str.upper`. -/

/-- Python `s.upper()` (ASCII). -/
def pyUpper (s : String) : String := ⟨s.data.map Char.toUpper⟩

/-- Python `s.lower()` (ASCII). -/
def pyLower (s : String) : String := ⟨s.data.map Char.toLower⟩

/-- Python `s.strip()`: drop whitespace from both ends. -/
def pyStrip (s : String) : String :=
  ⟨(((s.data.dropWhile Char.isWhitespace).reverse).dropWhile
      Char.isWhitespace).reverse⟩

/-- Does `hay` start with `needle`?  (On character lists.) -/
def leadsWith : List Char → List Char → Bool
  | [], _ => true
  | _ :: _, [] => false
  | a :: as, b :: bs => a == b && leadsWith as bs

/-- Does `hay` contain `needle` as a contiguous substring?  (Python `in`.) -/
def hasSub : List Char → List Char → Bool
  | n, [] => leadsWith n []
  | n, h :: t => leadsWith n (h :: t) || hasSub n t

/-- Python `needle in hay` on strings. -/
def containsSubstr (needle hay : String) : Bool :=
  hasSub needle.data hay.data

/-- Python `hay.startswith(needle)` on strings. -/
def strLeads (needle hay : String) : Bool :=
  leadsWith needle.data hay.data

/-- Python `", ".join(l)`. -/
def joinSep : List String → String
  | [] => ""
  | [s] => s
  | s :: t :: r => s ++ ", " ++ joinSep (t :: r)

theorem leadsWith_append (n rest : List Char) : leadsWith n (n ++ rest) = true := by
  induction n with
  | nil => rfl
  | cons a as ih => simp [leadsWith, ih]

theorem hasSub_of_leadsWith {n h : List Char} (hl : leadsWith n h = true) :
    hasSub n h = true := by
  cases h with
  | nil => simpa [hasSub] using hl
  | cons c t => simp [hasSub, hl]

theorem hasSub_cons {n t : List Char} (c : Char) (hs : hasSub n t = true) :
    hasSub n (c :: t) = true := by
  simp [hasSub, hs]

theorem hasSub_append_left {n h : List Char} (pre : List Char)
    (hs : hasSub n h = true) : hasSub n (pre ++ h) = true := by
  induction pre with
  | nil => simpa using hs
  | cons c cs ih => simpa using hasSub_cons c ih

theorem leadsWith_extend {n s : List Char} (post : List Char)
    (hl : leadsWith n s = true) : leadsWith n (s ++ post) = true := by
  induction n generalizing s with
  | nil => rfl
  | cons a as ih =>
    cases s with
    | nil => simp [leadsWith] at hl
    | cons b bs =>
      simp [leadsWith] at hl
      simp [leadsWith, hl.1, ih hl.2]

theorem hasSub_append_right {n h : List Char} (post : List Char)
    (hs : hasSub n h = true) : hasSub n (h ++ post) = true := by
  induction h with
  | nil =>
    simp [hasSub] at hs
    cases n with
    | nil => exact hasSub_of_leadsWith rfl
    | cons a as => simp [leadsWith] at hs
  | cons c t ih =>
    simp only [hasSub, Bool.or_eq_true] at hs
    rcases hs with hl | hr
    · exact hasSub_of_leadsWith (leadsWith_extend post hl)
    · simpa using hasSub_cons c (ih hr)

theorem hasSub_self (n : List Char) : hasSub n n = true := by
  have := leadsWith_append n []
  simp at this
  exact hasSub_of_leadsWith this

theorem containsSubstr_joinSep {t : String} {l : List String} (ht : t ∈ l) :
    containsSubstr t (joinSep l) = true := by
  induction l with
  | nil => cases ht
  | cons s rest ih =>
    cases rest with
    | nil =>
      rcases List.mem_singleton.mp ht with rfl
      simpa [containsSubstr, joinSep] using hasSub_self t.data
    | cons u r =>
      rcases List.mem_cons.mp ht with rfl | hmem
      · show hasSub t.data (t ++ ", " ++ joinSep (u :: r)).data = true
        have : (t ++ ", " ++ joinSep (u :: r)).data
            = t.data ++ (", " ++ joinSep (u :: r)).data := by
          simp [String.data_append]
        rw [this]
        exact hasSub_append_right _ (hasSub_self t.data)
      · have hin : containsSubstr t (joinSep (u :: r)) = true := ih hmem
        show hasSub t.data (s ++ ", " ++ joinSep (u :: r)).data = true
        have : (s ++ ", " ++ joinSep (u :: r)).data
            = (s.data ++ ", ".data) ++ (joinSep (u :: r)).data := by
          simp [String.data_append]
        rw [this]
        exact hasSub_append_left _ hin

theorem append_ne_empty_of_left {s : String} (t : String) (hs : s ≠ "") :
    s ++ t ≠ "" := by
  intro h
  apply hs
  have hlen : s.length + t.length = 0 := by
    simpa [String.length_append] using congrArg String.length h
  have : s.length = 0 := by omega
  cases s with
  | mk data =>
    cases data with
    | nil => rfl
    | cons c cs => simp [String.length, List.length] at this

/-! ## StructuredQueryBackend — `app/src/rag/sql_generator.py`

`generate_sql` delegates to an LLM; its outcome (the `"sql"` field of the
returned dict, `None` on failure) is an oracle parameter.  `execute_sql`
runs a query against the structured store; the store is an oracle
`String → ExecResult`, and the embedding of `SQLGenerator.query` records
every string actually handed to `execute_sql` in a call log. -/

/-- Result shape of `SQLGenerator.execute_sql` (the dict it returns). -/
structure ExecResult where
  success : Bool
  data : List (List (String × String))
  columns : List String
  rowCount : Nat
  error : Option String
  deriving Repr, DecidableEq

/-- Result shape of `SQLGenerator.query` (fields may be absent in some
branches of the Python dict: `rowCount = none` models a missing
`row_count` key). -/
structure SqlQueryResult where
  success : Bool
  sql : Option String
  data : List (List (String × String))
  columns : List String
  rowCount : Option Nat
  error : Option String
  deriving Repr, DecidableEq

/-- The forbidden-keyword list of `_validate_query_safety`. -/
def forbiddenKeywords : List String :=
  ["INSERT", "UPDATE", "DELETE", "DROP", "ALTER",
   "TRUNCATE", "CREATE", "REPLACE", "EXEC", "EXECUTE"]

/-- `SQLGenerator._validate_query_safety`: upper-case and strip, require a
SELECT/WITH leading keyword, reject any forbidden keyword anywhere, and
reject more than one semicolon (counted on the original string). -/
def validateQuerySafety (sql : String) : Bool :=
  let sqlUpper := pyStrip (pyUpper sql)
  if ¬ (strLeads "SELECT" sqlUpper ∨ strLeads "WITH" sqlUpper) then
    false
  else if forbiddenKeywords.any (fun kw => containsSubstr kw sqlUpper) then
    false
  else if sql.data.count ';' > 1 then
    false
  else
    true

/-- `SQLGenerator.query`: generation (oracle outcome `gen`), then the
safety gate, then execution.  The second component is the list of query
strings passed to `execute_sql`.  Python's `if not sql_result["sql"]` is
a truthiness test, so both a missing (`None`) and an empty generated
string take the generation-failure branch (whose dict hardcodes
`"sql": None`) before the safety validator is ever consulted. -/
def SQLGenerator.query (gen : Option String) (store : String → ExecResult) :
    SqlQueryResult × List String :=
  match gen with
  | none =>
      (⟨false, none, [], [], none, some "Failed to generate SQL"⟩, [])
  | some sql =>
      if sql == "" then
        (⟨false, none, [], [], none, some "Failed to generate SQL"⟩, [])
      else if ¬ validateQuerySafety sql then
        (⟨false, some sql, [], [], some 0,
          some "Invalid query: Only SELECT statements are allowed"⟩, [])
      else
        let e := store sql
        (⟨e.success, some sql, e.data, e.columns, some e.rowCount, e.error⟩,
         [sql])

/-! ## QuotaGuard — `app/src/auth/rate_limiter.py`

The `user_sessions` table is modelled as a list of rows (the schema's
`ON CONFLICT (session_id, last_query_date)` key makes at most one row per
session/day pair; `fetchone` takes the first matching row).  Calendar days
and timestamps are abstract naturals.  The happy-path body of
`check_and_increment` is `checkAndIncrementDb`; the surrounding
`try/except` (fail-open) is `RateLimiter.checkAndIncrement`. -/

/-- One row of the `user_sessions` table. -/
structure SessionRow where
  sessionId : String
  ipAddress : String
  queryCount : Nat
  lastQueryDate : Nat
  lastQueryTimestamp : Nat
  deriving Repr, DecidableEq

/-- The `user_sessions` table. -/
abbrev SessionStore := List SessionRow

/-- Return value of `RateLimiter.check_and_increment`. -/
structure RLResult where
  allowed : Bool
  limitType : Option String
  sessionCount : Nat
  ipCount : Nat
  deriving Repr, DecidableEq

/-- `SESSION_DAILY_LIMIT`. -/
def SESSION_DAILY_LIMIT : Nat := 30

/-- `IP_DAILY_LIMIT`. -/
def IP_DAILY_LIMIT : Nat := 1000

/-- `SELECT query_count FROM user_sessions WHERE session_id = %s AND
last_query_date = %s`, `fetchone`. -/
def sessionLookup (st : SessionStore) (sid : String) (day : Nat) : Option Nat :=
  (st.filter fun r => r.sessionId == sid && r.lastQueryDate == day).head?.map
    (·.queryCount)

/-- `SELECT SUM(query_count) FROM user_sessions WHERE ip_address = %s AND
last_query_date = %s` (SQL `SUM` of no rows is NULL, read back as 0). -/
def ipSum (st : SessionStore) (ip : String) (day : Nat) : Nat :=
  ((st.filter fun r => r.ipAddress == ip && r.lastQueryDate == day).map
    (·.queryCount)).sum

/-- The database transaction inside `check_and_increment`: read both
counters, reject on either limit (without writing), otherwise update the
existing row or insert a fresh one. -/
def checkAndIncrementDb (st : SessionStore) (sid ip : String)
    (today now : Nat) : RLResult × SessionStore :=
  let sessionResult := sessionLookup st sid today
  let sessionCount := sessionResult.getD 0
  let ipCount := ipSum st ip today
  if sessionCount ≥ SESSION_DAILY_LIMIT then
    (⟨false, some "session", sessionCount, ipCount⟩, st)
  else if ipCount ≥ IP_DAILY_LIMIT then
    (⟨false, some "ip", sessionCount, ipCount⟩, st)
  else
    let st' :=
      match sessionResult with
      | some _ =>
          st.map fun r =>
            if r.sessionId == sid && r.lastQueryDate == today then
              { r with queryCount := r.queryCount + 1,
                       lastQueryTimestamp := now }
            else r
      | none => st ++ [⟨sid, ip, 1, today, now⟩]
    (⟨true, none, sessionCount + 1, ipCount + 1⟩, st')

/-- `RateLimiter.check_and_increment` with its outer `try/except`: the
database interaction either completes (`.ok`, carrying the result and the
committed store) or raises somewhere (`.error`), in which case the
`except` branch allows the query (fail open). -/
def RateLimiter.checkAndIncrement
    (dbOutcome : Except Unit (RLResult × SessionStore)) : RLResult :=
  match dbOutcome with
  | .ok (r, _) => r
  | .error _ => ⟨true, none, 0, 0⟩

/-- Iterate `checkAndIncrementDb` `n` times for one identity, collecting
the per-call results. -/
def iterCheck (sid ip : String) (day now : Nat) :
    Nat → SessionStore → SessionStore × List RLResult
  | 0, st => (st, [])
  | n + 1, st =>
      let step := checkAndIncrementDb st sid ip day now
      let rest := iterCheck sid ip day now n step.2
      (rest.1, step.1 :: rest.2)

/-! ## SemanticSearchBackend — `app/src/rag/vector_searcher.py`

The two passage pools are nearest-neighbor stores; a store is an oracle
taking the optional ticker filter and the `LIMIT` bound and returning the
ordered hit list (what `cursor.fetchall()` yields).  Similarities are
rationals (the pgvector cosine similarity `1 - distance`); Python's
`round(x, 4)` is modelled with `round` on rationals (the two differ only
on exact ties, which no claim touches). -/

/-- A row returned by the 10-K embedding store. -/
structure TenkHit where
  ticker : String
  fiscalYear : Int
  itemLabel : String
  chunkText : String
  chunkIndex : Nat
  itemDescription : String
  similarity : ℚ
  companyName : String
  deriving Repr, DecidableEq

/-- A row returned by the transcript-chunk store. -/
structure TrHit where
  ticker : String
  fiscalYear : Int
  fiscalQuarter : Int
  chunkText : String
  speaker : String
  similarity : ℚ
  companyName : String
  deriving Repr, DecidableEq

/-- A chunk dict as built by the `VectorSearcher` methods (keys that a
given method does not set are `none`). -/
structure Chunk where
  ticker : String
  companyName : String
  sourceType : Option String
  chunkText : String
  similarity : ℚ
  fiscalYear : Option Int
  fiscalQuarter : Option Int
  speaker : Option String
  itemLabel : Option String
  itemDescription : Option String
  chunkIndex : Option Nat
  sourcePeriod : Option String
  deriving Repr, DecidableEq

/-- Python `round(q, 4)`. -/
def round4 (q : ℚ) : ℚ := (round (q * 10000) : ℤ) / 10000

/-- The two nearest-neighbor stores, with optional ticker filtering and a
result-count cap, shared by all `VectorSearcher` methods. -/
structure VSOracles where
  tenkStore : Option (List String) → Nat → List TenkHit
  trStore : Option (List String) → Nat → List TrHit

/-- Python truthiness of the `tickers` argument (`if tickers:`): an absent
or empty list means no filter. -/
def tickerArg : Option (List String) → Option (List String)
  | some (t :: ts) => some (t :: ts)
  | _ => none

/-- `VectorSearcher.search`: broad 10-K search, thresholded. -/
def VectorSearcher.search (o : VSOracles) (tickers : Option (List String))
    (topK : Nat) (similarityThreshold : ℚ) : List Chunk :=
  ((o.tenkStore (tickerArg tickers) topK).filter
      (fun h => similarityThreshold ≤ h.similarity)).map fun h =>
    { ticker := h.ticker
      companyName := h.companyName
      sourceType := none
      chunkText := h.chunkText
      similarity := round4 h.similarity
      fiscalYear := some h.fiscalYear
      fiscalQuarter := none
      speaker := none
      itemLabel := some h.itemLabel
      itemDescription := some h.itemDescription
      chunkIndex := some h.chunkIndex
      sourcePeriod := none }

/-- `VectorSearcher.search_by_company` (with `section_filter = None`):
scoped 10-K search, no similarity threshold, and no `fiscal_year` /
`chunk_index` keys on the produced chunks. -/
def VectorSearcher.searchByCompany (o : VSOracles) (ticker : String)
    (topK : Nat) : List Chunk :=
  (o.tenkStore (some [ticker]) topK).map fun h =>
    { ticker := ticker
      companyName := h.companyName
      sourceType := none
      chunkText := h.chunkText
      similarity := round4 h.similarity
      fiscalYear := none
      fiscalQuarter := none
      speaker := none
      itemLabel := some h.itemLabel
      itemDescription := some h.itemDescription
      chunkIndex := none
      sourcePeriod := none }

/-- Format a transcript hit as a chunk (shared by both transcript
methods). -/
def mkTranscriptChunk (h : TrHit) : Chunk :=
  { ticker := h.ticker
    companyName := h.companyName
    sourceType := some "Earning Call"
    chunkText := h.chunkText
    similarity := round4 h.similarity
    fiscalYear := some h.fiscalYear
    fiscalQuarter := some h.fiscalQuarter
    speaker := some h.speaker
    itemLabel := none
    itemDescription := none
    chunkIndex := none
    sourcePeriod := some ("Q" ++ toString h.fiscalQuarter ++ " " ++ toString h.fiscalYear) }

/-- `VectorSearcher.search_transcripts`: broad transcript search,
thresholded. -/
def VectorSearcher.searchTranscripts (o : VSOracles)
    (tickers : Option (List String)) (topK : Nat)
    (similarityThreshold : ℚ) : List Chunk :=
  ((o.trStore (tickerArg tickers) topK).filter
      (fun h => similarityThreshold ≤ h.similarity)).map mkTranscriptChunk

/-- `VectorSearcher.search_transcripts_by_company`: scoped transcript
search — note that unlike `search_by_company` it still applies the
similarity threshold. -/
def VectorSearcher.searchTranscriptsByCompany (o : VSOracles)
    (ticker : String) (topK : Nat) (similarityThreshold : ℚ) : List Chunk :=
  ((o.trStore (some [ticker]) topK).filter
      (fun h => similarityThreshold ≤ h.similarity)).map mkTranscriptChunk

/-- `len(tickers) == 1 if tickers else False`. -/
def singleCompany : Option (List String) → Bool
  | some l => l.length == 1
  | none => false

/-- Tagging applied to 10-K chunks inside `search_all_sources`:
`source_type` is set unconditionally, `source_period` only when absent. -/
def tag10k (c : Chunk) : Chunk :=
  { c with
    sourceType := some "10-K Filing"
    sourcePeriod :=
      match c.sourcePeriod with
      | some p => some p
      | none =>
          some ("FY " ++ (match c.fiscalYear with
                          | some y => toString y
                          | none => "N/A")) }

/-- The 10-K part of `search_all_sources`. -/
def searchAllSources10k (o : VSOracles) (tickers : Option (List String))
    (topK : Nat) (thr10k : ℚ) (include10k : Bool) : List Chunk :=
  if include10k then
    (if singleCompany tickers then
      VectorSearcher.searchByCompany o ((tickers.getD []).headD "") topK
     else
      VectorSearcher.search o tickers topK thr10k).map tag10k
  else []

/-- The transcript part of `search_all_sources`. -/
def searchAllSourcesTr (o : VSOracles) (tickers : Option (List String))
    (topK : Nat) (thrTr : ℚ) (includeTranscripts : Bool) : List Chunk :=
  if includeTranscripts then
    if singleCompany tickers then
      VectorSearcher.searchTranscriptsByCompany o
        ((tickers.getD []).headD "") topK thrTr
    else
      VectorSearcher.searchTranscripts o tickers topK thrTr
  else []

/-- Insert a chunk into a similarity-descending list, after any chunk of
equal similarity (stability). -/
def insertDesc (c : Chunk) : List Chunk → List Chunk
  | [] => [c]
  | d :: ds =>
      if c.similarity ≤ d.similarity then d :: insertDesc c ds
      else c :: d :: ds

/-- Stable sort by similarity descending — the semantics of Python's
`results.sort(key=lambda x: x['similarity'], reverse=True)` (stable
descending sort), implemented as stable insertion so it evaluates by
kernel reduction. -/
def sortBySimDesc (l : List Chunk) : List Chunk :=
  l.foldl (fun acc c => insertDesc c acc) []

/-- `VectorSearcher.search_all_sources`: both pools, merged, sorted by
similarity descending, truncated to `2 * topK`.  The thresholds are the
Python defaults `0.45` / `0.55` at every call site in the repository. -/
def VectorSearcher.searchAllSources (o : VSOracles)
    (tickers : Option (List String)) (topK : Nat) (thr10k thrTr : ℚ)
    (include10k includeTranscripts : Bool) : List Chunk :=
  (sortBySimDesc
    (searchAllSources10k o tickers topK thr10k include10k ++
     searchAllSourcesTr o tickers topK thrTr includeTranscripts)).take
    (topK * 2)

/-! ## IntentClassifier — `app/src/rag/query_classifier.py`

The LLM call plus JSON parsing either yields a parsed classification dict
(`.ok`) or raises somewhere (`.error` — network error, malformed output,
JSON parse failure all land in the single `except` block).  `classify`
consumes exactly one such outcome: the `except` branch performs no second
service invocation. -/

/-- One entry of `mentioned_companies`. -/
structure MentionedCompany where
  name : String
  ticker : String
  deriving Repr, DecidableEq

/-- A successfully parsed classification payload. -/
structure ClassifierRaw where
  queryType : String
  mentionedCompanies : List MentionedCompany
  deriving Repr, DecidableEq

/-- The dict `QueryClassifier.classify` returns (after the convenience
`mentioned_tickers` extraction). -/
structure Classification where
  queryType : String
  mentionedCompanies : List MentionedCompany
  mentionedTickers : List String
  deriving Repr, DecidableEq

/-- The fallback classification returned on any classifier failure. -/
def fallbackClassification : Classification :=
  { queryType := "HYBRID"
    mentionedCompanies := []
    mentionedTickers := [] }

/-- `QueryClassifier.classify`. -/
def QueryClassifier.classify (svc : Except Unit ClassifierRaw) :
    Classification :=
  match svc with
  | .ok raw =>
      { queryType := raw.queryType
        mentionedCompanies := raw.mentionedCompanies
        mentionedTickers := raw.mentionedCompanies.map (·.ticker) }
  | .error _ => fallbackClassification

/-! ## Orchestrator — `app/src/rag/orchestrator.py`

The entity catalog (`CompanyLoader.get_company_dict`, a ticker → name
dict) is an association list preserving insertion order.  Every
collaborator outcome is an oracle field, and the result carries a trace of
backend invocations so that "backend never called" claims are about the
trace, not about the absence of a definition. -/

/-- Ticker → display-name catalog (`get_company_dict`). -/
abbrev Catalog := List (String × String)

/-- Python `t in valid_companies` / `valid_companies[t]`. -/
def catalogLookup (cat : Catalog) (t : String) : Option String :=
  (cat.find? fun p => p.1 == t).map (·.2)

/-- A `{ticker, name}` dict from `_normalize_companies`. -/
structure CompanyDict where
  ticker : String
  name : String
  deriving Repr, DecidableEq

/-- A citation entry built by the orchestrator's `sources` loops. -/
structure SourceEntry where
  company : String
  ticker : String
  sourceType : String
  sectionLabel : String
  speaker : Option String
  deriving Repr, DecidableEq

/-- The response envelope (a Python dict; keys absent on a given path are
`none` / `[]`, and `hasInvalidCompanies` marks presence of the
`invalid_companies` key). -/
structure Envelope where
  success : Bool
  answer : String
  queryType : String
  sql : Option String
  data : List (List (String × String))
  rowCount : Option Nat
  sources : List SourceEntry
  chunkCount : Option Nat
  errorType : Option String
  invalidCompanies : List String
  hasInvalidCompanies : Bool
  deriving Repr, DecidableEq

/-- A neutral envelope: every path below overrides the fields it sets. -/
def emptyEnvelope : Envelope :=
  { success := false, answer := "", queryType := "", sql := none, data := [],
    rowCount := none, sources := [], chunkCount := none, errorType := none,
    invalidCompanies := [], hasInvalidCompanies := false }

/-- Parameters of a `search_all_sources` invocation. -/
structure VectorCallRec where
  tickers : Option (List String)
  topK : Nat
  include10k : Bool
  includeTranscripts : Bool
  deriving Repr, DecidableEq

/-- Observable backend invocations of one orchestrator call. -/
inductive CallEvent where
  | sqlGen (companies : List CompanyDict)
  | sqlExec (sql : String)
  | vectorSearch (rec : VectorCallRec)
  deriving Repr, DecidableEq

/-- All collaborator outcomes feeding one `RAGOrchestrator.query` call.
`classifierSvc` is the LLM classification attempt, `sqlGenerated` the
`"sql"` field produced by `generate_sql`, `execSql` the structured store,
`vectorSvc` the outcome of `search_all_sources` for given parameters
(`.error` models an exception escaping it), and the three `answer*`
fields are the LLM texts produced by the `ResponseGenerator` methods
(which catch their own failures and always return a string). -/
structure OrchOracles where
  catalog : Catalog
  classifierSvc : Except Unit ClassifierRaw
  sqlGenerated : Option String
  execSql : String → ExecResult
  vectorSvc : VectorCallRec → Except Unit (List Chunk)
  answerSql : String
  answerVec : String
  answerHybrid : String

/-- `RAGOrchestrator._normalize_companies`. -/
def normalizeCompanies (cat : Catalog) (tickers : List String) :
    List CompanyDict :=
  tickers.map fun t =>
    match catalogLookup cat t with
    | some n => ⟨t, n⟩
    | none => ⟨t, t⟩

/-- The answer text of the `VALIDATION_FAILED` envelope. -/
def validationAnswer (invalidTickers : List String) (cat : Catalog) : String :=
  let invalidNames := joinSep invalidTickers
  let examplesStr :=
    joinSep ((cat.take 5).map fun p => p.2 ++ " (" ++ p.1 ++ ")")
  "I don't have data for " ++ invalidNames ++
    ". I only cover NASDAQ-100 companies.\n\nYou can ask about companies like: "
    ++ examplesStr ++ ", and more."

/-- `RAGOrchestrator._validate_companies`: `none` means valid, `some env`
is the rejection envelope. -/
def validateCompanies (cat : Catalog) (mentionedTickers : List String) :
    Option Envelope :=
  if mentionedTickers.isEmpty then none
  else
    let invalidTickers :=
      mentionedTickers.filter fun t => (catalogLookup cat t).isNone
    if invalidTickers.isEmpty then none
    else
      some { emptyEnvelope with
              success := false
              answer := validationAnswer invalidTickers cat
              queryType := "VALIDATION_FAILED"
              invalidCompanies := invalidTickers
              hasInvalidCompanies := true }

/-- The `sources` list built from the first 5 chunks (identical loops in
`_handle_qualitative` and `_handle_hybrid`). -/
def buildSources (chunks : List Chunk) : List SourceEntry :=
  (chunks.take 5).map fun c =>
    let st := c.sourceType.getD "10-K Filing"
    if st == "Earning Call" then
      { company := c.companyName
        ticker := c.ticker
        sourceType := st
        sectionLabel := "Q" ++ (match c.fiscalQuarter with
                           | some q => toString q
                           | none => "None") ++ " " ++
                   (match c.fiscalYear with
                    | some y => toString y
                    | none => "None") ++ " Earnings Call"
        speaker := c.speaker }
    else
      { company := c.companyName
        ticker := c.ticker
        sourceType := st
        sectionLabel := c.itemLabel.getD "N/A"
        speaker := none }

/-- `RAGOrchestrator._smart_vector_search`: pick scope and breadth from
the mentioned-ticker count, call `search_all_sources`, and turn any
escaping error into `[]`.  Returns the chunks and the recorded call. -/
def smartVectorSearch (o : OrchOracles) (mentionedTickers : List String) :
    List Chunk × VectorCallRec :=
  let rec' : VectorCallRec :=
    if mentionedTickers.length == 1 then
      ⟨some mentionedTickers, 5, true, true⟩
    else if mentionedTickers.length > 1 then
      ⟨some mentionedTickers, 10, true, true⟩
    else
      ⟨none, 10, true, true⟩
  match o.vectorSvc rec' with
  | .ok chunks => (chunks, rec')
  | .error _ => ([], rec')

/-- Fixed prefix of the QUANTITATIVE SQL-failure answer (the raw error
detail is appended after it). -/
def sqlFailureAnswerPrefix : String :=
  "I had trouble retrieving the financial data. Please try rephrasing your question or asking about different metrics.\n\nError: "

/-- Fixed NO_DATA_FOUND answer. -/
def noDataFoundAnswer : String :=
  "I couldn't find any matching financial data for your query. Try asking about revenue, profit margins, total assets, or other financial metrics."

/-- Fixed prefix/suffix of the scoped NO_RELEVANT_INFO answer. -/
def qualNoInfoScopedPrefix : String :=
  "I couldn't find relevant information in the 10-K filings or transcripts for "

/-- Suffix of the scoped NO_RELEVANT_INFO answer. -/
def qualNoInfoScopedSuffix : String :=
  ". The company might not have filed a 10-K yet, or the information might not be in the sections I searched.\n\nTry asking about risks, business strategy, or legal proceedings."

/-- Fixed unscoped NO_RELEVANT_INFO answer. -/
def qualNoInfoGenericAnswer : String :=
  "I couldn't find relevant information in the 10-K filings or transcripts. Try asking about specific topics like:\n- Risk factors\n- Business model and strategy\n- Legal proceedings\n- Market risks"

/-- Fixed hybrid NO_DATA answer. -/
def hybridNoDataAnswer : String :=
  "I couldn't find relevant information for your query. Try being more specific about the companies or metrics you're interested in."

/-- Fixed UNKNOWN-routing answer. -/
def unknownRoutingAnswer : String :=
  "I couldn't determine how to process your query. Could you try rephrasing?"

/-- `RAGOrchestrator._handle_quantitative`. -/
def handleQuantitative (o : OrchOracles) (mentionedTickers : List String) :
    Envelope × List CallEvent :=
  let companyDicts := normalizeCompanies o.catalog mentionedTickers
  let sqlStep := SQLGenerator.query o.sqlGenerated o.execSql
  let sqlResult := sqlStep.1
  let events := CallEvent.sqlGen companyDicts :: sqlStep.2.map CallEvent.sqlExec
  if ¬ sqlResult.success then
    ({ emptyEnvelope with
        success := false
        answer := sqlFailureAnswerPrefix ++ sqlResult.error.getD "Unknown error"
        queryType := "QUANTITATIVE"
        sql := sqlResult.sql
        errorType := some "SQL_EXECUTION_FAILED" }, events)
  else if sqlResult.data.isEmpty ∨ sqlResult.rowCount.getD 0 == 0 then
    ({ emptyEnvelope with
        success := false
        answer := noDataFoundAnswer
        queryType := "QUANTITATIVE"
        sql := sqlResult.sql
        errorType := some "NO_DATA_FOUND" }, events)
  else
    ({ emptyEnvelope with
        success := true
        answer := o.answerSql
        queryType := "QUANTITATIVE"
        sql := sqlResult.sql
        data := sqlResult.data
        rowCount := sqlResult.rowCount }, events)

/-- `RAGOrchestrator._handle_qualitative`. -/
def handleQualitative (o : OrchOracles) (mentionedTickers : List String) :
    Envelope × List CallEvent :=
  let vsearch := smartVectorSearch o mentionedTickers
  let chunks := vsearch.1
  let events := [CallEvent.vectorSearch vsearch.2]
  if chunks.isEmpty then
    let message :=
      if ¬ mentionedTickers.isEmpty then
        qualNoInfoScopedPrefix ++ joinSep mentionedTickers ++ qualNoInfoScopedSuffix
      else
        qualNoInfoGenericAnswer
    ({ emptyEnvelope with
        success := false
        answer := message
        queryType := "QUALITATIVE"
        errorType := some "NO_RELEVANT_INFO" }, events)
  else
    ({ emptyEnvelope with
        success := true
        answer := o.answerVec
        queryType := "QUALITATIVE"
        sources := buildSources chunks
        chunkCount := some chunks.length }, events)

/-- `RAGOrchestrator._handle_hybrid`. -/
def handleHybrid (o : OrchOracles) (mentionedTickers : List String) :
    Envelope × List CallEvent :=
  let companyDicts := normalizeCompanies o.catalog mentionedTickers
  let sqlStep := SQLGenerator.query o.sqlGenerated o.execSql
  let sqlResult := sqlStep.1
  let vsearch := smartVectorSearch o mentionedTickers
  let chunks := vsearch.1
  let events := CallEvent.sqlGen companyDicts ::
    sqlStep.2.map CallEvent.sqlExec ++ [CallEvent.vectorSearch vsearch.2]
  if ¬ sqlResult.success ∧ chunks.isEmpty then
    ({ emptyEnvelope with
        success := false
        answer := hybridNoDataAnswer
        queryType := "HYBRID"
        errorType := some "NO_DATA" }, events)
  else
    ({ emptyEnvelope with
        success := true
        answer := o.answerHybrid
        queryType := "HYBRID"
        sql := sqlResult.sql
        data := sqlResult.data
        sources := buildSources chunks
        chunkCount := some chunks.length }, events)

/-- Fixed RATE_LIMIT answer. -/
def rateLimitAnswer : String :=
  "The AI service is currently at capacity. Please try again in a few minutes."

/-- Fixed QUOTA_EXCEEDED answer. -/
def quotaExceededAnswer : String :=
  "The AI service quota has been exceeded. Please contact support or try again later."

/-- Fixed API_KEY_ERROR answer. -/
def apiKeyErrorAnswer : String :=
  "There's a configuration issue with the service. Please contact support."

/-- Fixed DATABASE_ERROR answer. -/
def databaseErrorAnswer : String :=
  "I'm having trouble connecting to the database. Please try again in a moment."

/-- Fixed TIMEOUT_ERROR answer. -/
def timeoutErrorAnswer : String :=
  "The request timed out. Please try again."

/-- Fixed UNEXPECTED_ERROR answer. -/
def unexpectedErrorAnswer : String :=
  "Something unexpected happened. Please try again or rephrase your question. If the problem persists, please contact support."

/-- `RAGOrchestrator._handle_system_error`: classify a caught top-level
error by substring patterns of its lower-cased text. -/
def handleSystemError (errorText : String) : Envelope :=
  let errorStr := pyLower errorText
  if containsSubstr "rate limit" errorStr ∨ containsSubstr "429" errorStr then
    { emptyEnvelope with
        answer := rateLimitAnswer
        errorType := some "RATE_LIMIT" }
  else if containsSubstr "quota" errorStr ∨ containsSubstr "insufficient_quota" errorStr then
    { emptyEnvelope with
        answer := quotaExceededAnswer
        errorType := some "QUOTA_EXCEEDED" }
  else if containsSubstr "api key" errorStr ∨ containsSubstr "401" errorStr ∨ containsSubstr "authentication" errorStr then
    { emptyEnvelope with
        answer := apiKeyErrorAnswer
        errorType := some "API_KEY_ERROR" }
  else if containsSubstr "connection" errorStr ∨ containsSubstr "database" errorStr ∨ containsSubstr "psycopg2" errorStr then
    { emptyEnvelope with
        answer := databaseErrorAnswer
        errorType := some "DATABASE_ERROR" }
  else if containsSubstr "timeout" errorStr ∨ containsSubstr "timed out" errorStr then
    { emptyEnvelope with
        answer := timeoutErrorAnswer
        errorType := some "TIMEOUT_ERROR" }
  else
    { emptyEnvelope with
        answer := unexpectedErrorAnswer
        errorType := some "UNEXPECTED_ERROR" }

/-- `RAGOrchestrator.query`: classify, validate, route.  The second
component is the trace of backend invocations. -/
def RAGOrchestrator.query (o : OrchOracles) : Envelope × List CallEvent :=
  let classification := QueryClassifier.classify o.classifierSvc
  let queryType := classification.queryType
  let mentionedTickers := classification.mentionedTickers
  match validateCompanies o.catalog mentionedTickers with
  | some env => (env, [])
  | none =>
      if queryType == "QUANTITATIVE" then
        handleQuantitative o mentionedTickers
      else if queryType == "QUALITATIVE" then
        handleQualitative o mentionedTickers
      else if queryType == "HYBRID" then
        handleHybrid o mentionedTickers
      else
        ({ emptyEnvelope with
            success := false
            answer := unknownRoutingAnswer
            queryType := "UNKNOWN" }, [])

/-! ## Claims -/

/-- A concrete structured store used in counterexamples and witnesses. -/
def trivialStore : String → ExecResult := fun _ => ⟨true, [], [], 0, none⟩

/-- C1 counterexample: the empty generated string (reachable when the
LLM completion strips to `""`) does not begin with SELECT or WITH, so
the claim demands the fixed invalid-query error; but Python's
`if not sql_result["sql"]` truthiness test sends it down the
generation-failure branch instead — the safety validator never runs and
the error is "Failed to generate SQL" (execution is still never
invoked). -/
theorem empty_generated_sql_skips_validator :
    strLeads "SELECT" (pyStrip (pyUpper "")) = false
    ∧ strLeads "WITH" (pyStrip (pyUpper "")) = false
    ∧ (SQLGenerator.query (some "") trivialStore).1.success = false
    ∧ (SQLGenerator.query (some "") trivialStore).1.error
        = some "Failed to generate SQL"
    ∧ (SQLGenerator.query (some "") trivialStore).1.error
        ≠ some "Invalid query: Only SELECT statements are allowed"
    ∧ (SQLGenerator.query (some "") trivialStore).2 = [] := by
  decide

/-- C1 amended: for every non-empty generated SQL string, if the trimmed
upper-cased text does not begin with SELECT or WITH, or contains a
forbidden keyword anywhere, or contains more than one semicolon, then
`SQLGenerator.query` returns `success = false` with the fixed
invalid-query error and never hands the string to `execute_sql` (the
execution log is empty); a missing or empty generation result is also
rejected without execution, but with the generation-failure error
instead of the validator's fixed error. -/
theorem sql_safety_gate_blocks_before_execution
    (sql : String) (store : String → ExecResult)
    (hne : sql ≠ "")
    (h : (strLeads "SELECT" (pyStrip (pyUpper sql)) = false ∧
          strLeads "WITH" (pyStrip (pyUpper sql)) = false)
       ∨ (∃ kw ∈ forbiddenKeywords,
            containsSubstr kw (pyStrip (pyUpper sql)) = true)
       ∨ 1 < sql.data.count ';') :
    ((SQLGenerator.query (some sql) store).1.success = false
     ∧ (SQLGenerator.query (some sql) store).1.error
         = some "Invalid query: Only SELECT statements are allowed"
     ∧ (SQLGenerator.query (some sql) store).2 = [])
    ∧ ((SQLGenerator.query none store).1.success = false
       ∧ (SQLGenerator.query none store).1.error = some "Failed to generate SQL"
       ∧ (SQLGenerator.query none store).2 = [])
    ∧ ((SQLGenerator.query (some "") store).1.success = false
       ∧ (SQLGenerator.query (some "") store).1.error
           = some "Failed to generate SQL"
       ∧ (SQLGenerator.query (some "") store).2 = []) := by
  have hb : (sql == "") = false := beq_eq_false_iff_ne.mpr hne
  have hv : validateQuerySafety sql = false := by
    simp only [validateQuerySafety]
    rcases h with ⟨h1, h2⟩ | ⟨kw, hkw, hc⟩ | hcount
    · rw [if_pos (by simp [h1, h2])]
    · have hany : (forbiddenKeywords.any
          fun kw => containsSubstr kw (pyStrip (pyUpper sql))) = true :=
        List.any_eq_true.mpr ⟨kw, hkw, hc⟩
      by_cases hstart : ¬(strLeads "SELECT" (pyStrip (pyUpper sql)) = true
          ∨ strLeads "WITH" (pyStrip (pyUpper sql)) = true)
      · rw [if_pos hstart]
      · rw [if_neg hstart, if_pos hany]
    · by_cases hstart : ¬(strLeads "SELECT" (pyStrip (pyUpper sql)) = true
          ∨ strLeads "WITH" (pyStrip (pyUpper sql)) = true)
      · rw [if_pos hstart]
      · rw [if_neg hstart]
        by_cases hforb : (forbiddenKeywords.any
            fun kw => containsSubstr kw (pyStrip (pyUpper sql))) = true
        · rw [if_pos hforb]
        · rw [if_neg hforb, if_pos (by omega)]
  refine ⟨?_, ⟨rfl, rfl, rfl⟩, ⟨rfl, rfl, rfl⟩⟩
  simp [SQLGenerator.query, hb, hv]

/-- A concrete unsafe generated query (appends a mutation statement). -/
def unsafeSqlExample : String := "SELECT 1; DROP TABLE companies;"

/-- C1 amended witness: the concrete non-empty multi-statement mutation
query is rejected with the fixed error and zero store calls, while
missing/empty generation results get the generation-failure error. -/
theorem sql_safety_gate_blocks_before_execution_witness :
    (unsafeSqlExample ≠ "")
    ∧ (1 < unsafeSqlExample.data.count ';')
    ∧ (((SQLGenerator.query (some unsafeSqlExample) trivialStore).1.success = false
        ∧ (SQLGenerator.query (some unsafeSqlExample) trivialStore).1.error
            = some "Invalid query: Only SELECT statements are allowed"
        ∧ (SQLGenerator.query (some unsafeSqlExample) trivialStore).2 = [])
       ∧ ((SQLGenerator.query none trivialStore).1.success = false
          ∧ (SQLGenerator.query none trivialStore).1.error
              = some "Failed to generate SQL"
          ∧ (SQLGenerator.query none trivialStore).2 = [])
       ∧ ((SQLGenerator.query (some "") trivialStore).1.success = false
          ∧ (SQLGenerator.query (some "") trivialStore).1.error
              = some "Failed to generate SQL"
          ∧ (SQLGenerator.query (some "") trivialStore).2 = [])) :=
  ⟨by decide, by decide,
   sql_safety_gate_blocks_before_execution unsafeSqlExample trivialStore
     (by decide) (Or.inr (Or.inr (by decide)))⟩

/-- Every rejected ticker appears verbatim in the validation answer. -/
theorem containsSubstr_validationAnswer {t : String} {l : List String}
    (cat : Catalog) (ht : t ∈ l) :
    containsSubstr t (validationAnswer l cat) = true := by
  have hj : containsSubstr t (joinSep l) = true := containsSubstr_joinSep ht
  show hasSub t.data (validationAnswer l cat).data = true
  have hd : (validationAnswer l cat).data
      = ("I don't have data for " : String).data ++
        ((joinSep l).data ++
         ((". I only cover NASDAQ-100 companies.\n\nYou can ask about companies like: " : String).data ++
          ((joinSep ((cat.take 5).map fun p => p.2 ++ " (" ++ p.1 ++ ")")).data ++
           (", and more." : String).data))) := by
    simp [validationAnswer, String.data_append, List.append_assoc]
  rw [hd]
  exact hasSub_append_left _ (hasSub_append_right _ hj)

/-- C2: if the classified mentioned-ticker list contains a ticker missing
from the catalog, the orchestrator returns the VALIDATION_FAILED envelope
(success = false, `invalid_companies` exactly the unrecognized tickers in
order, each named in the answer, which is the message built from up to 5
example known companies) and performs no backend call at all. -/
theorem validation_gate_blocks_unknown_tickers
    (o : OrchOracles) (raw : ClassifierRaw)
    (hsvc : o.classifierSvc = .ok raw)
    (hinv : (raw.mentionedCompanies.map (·.ticker)).filter
      (fun t => (catalogLookup o.catalog t).isNone) ≠ []) :
    (RAGOrchestrator.query o).1.success = false
    ∧ (RAGOrchestrator.query o).1.queryType = "VALIDATION_FAILED"
    ∧ (RAGOrchestrator.query o).1.invalidCompanies
        = (raw.mentionedCompanies.map (·.ticker)).filter
            (fun t => (catalogLookup o.catalog t).isNone)
    ∧ (RAGOrchestrator.query o).1.answer
        = validationAnswer
            ((raw.mentionedCompanies.map (·.ticker)).filter
              (fun t => (catalogLookup o.catalog t).isNone)) o.catalog
    ∧ (∀ t ∈ (raw.mentionedCompanies.map (·.ticker)).filter
          (fun t => (catalogLookup o.catalog t).isNone),
        containsSubstr t (RAGOrchestrator.query o).1.answer = true)
    ∧ (RAGOrchestrator.query o).2 = [] := by
  have hne : ¬ (raw.mentionedCompanies.map (·.ticker)).isEmpty = true := by
    intro hemp
    rw [List.isEmpty_iff] at hemp
    rw [hemp] at hinv
    exact hinv rfl
  have hfil : ¬ ((raw.mentionedCompanies.map (·.ticker)).filter
      (fun t => (catalogLookup o.catalog t).isNone)).isEmpty = true := by
    intro hemp
    exact hinv (List.isEmpty_iff.mp hemp)
  have hval : validateCompanies o.catalog (raw.mentionedCompanies.map (·.ticker))
      = some { emptyEnvelope with
                success := false
                answer := validationAnswer
                  ((raw.mentionedCompanies.map (·.ticker)).filter
                    (fun t => (catalogLookup o.catalog t).isNone)) o.catalog
                queryType := "VALIDATION_FAILED"
                invalidCompanies :=
                  (raw.mentionedCompanies.map (·.ticker)).filter
                    (fun t => (catalogLookup o.catalog t).isNone)
                hasInvalidCompanies := true } := by
    simp only [validateCompanies, if_neg hne, if_neg hfil]
  have hq : RAGOrchestrator.query o
      = ({ emptyEnvelope with
            success := false
            answer := validationAnswer
              ((raw.mentionedCompanies.map (·.ticker)).filter
                (fun t => (catalogLookup o.catalog t).isNone)) o.catalog
            queryType := "VALIDATION_FAILED"
            invalidCompanies :=
              (raw.mentionedCompanies.map (·.ticker)).filter
                (fun t => (catalogLookup o.catalog t).isNone)
            hasInvalidCompanies := true }, []) := by
    simp only [RAGOrchestrator.query, hsvc, QueryClassifier.classify, hval]
  refine ⟨by rw [hq], by rw [hq], by rw [hq], by rw [hq], ?_, by rw [hq]⟩
  intro t ht
  rw [hq]
  exact containsSubstr_validationAnswer o.catalog ht

/-- Concrete oracles for the C2 witness: a HYBRID classification mentions
one unknown ticker (TSLA) alongside one known ticker (AAPL). -/
def exOraclesC2 : OrchOracles :=
  { catalog := [("AAPL", "Apple Inc")]
    classifierSvc := .ok ⟨"HYBRID", [⟨"Tesla", "TSLA"⟩, ⟨"Apple", "AAPL"⟩]⟩
    sqlGenerated := some "SELECT 1"
    execSql := trivialStore
    vectorSvc := fun _ => .ok []
    answerSql := "a"
    answerVec := "b"
    answerHybrid := "c" }

/-- C2 witness: the HYBRID query mentioning TSLA (unknown) and AAPL
(known) is rejected without backend calls. -/
theorem validation_gate_blocks_unknown_tickers_witness :
    ((([⟨"Tesla", "TSLA"⟩, ⟨"Apple", "AAPL"⟩] : List MentionedCompany).map
        (·.ticker)).filter
        (fun t => (catalogLookup exOraclesC2.catalog t).isNone) ≠ [])
    ∧ ((RAGOrchestrator.query exOraclesC2).1.success = false
       ∧ (RAGOrchestrator.query exOraclesC2).1.queryType = "VALIDATION_FAILED"
       ∧ (RAGOrchestrator.query exOraclesC2).1.invalidCompanies
           = (([⟨"Tesla", "TSLA"⟩, ⟨"Apple", "AAPL"⟩] : List MentionedCompany).map
               (·.ticker)).filter
               (fun t => (catalogLookup exOraclesC2.catalog t).isNone)
       ∧ (RAGOrchestrator.query exOraclesC2).1.answer
           = validationAnswer
               ((([⟨"Tesla", "TSLA"⟩, ⟨"Apple", "AAPL"⟩] : List MentionedCompany).map
                   (·.ticker)).filter
                   (fun t => (catalogLookup exOraclesC2.catalog t).isNone))
               exOraclesC2.catalog
       ∧ (∀ t ∈ (([⟨"Tesla", "TSLA"⟩, ⟨"Apple", "AAPL"⟩] : List MentionedCompany).map
             (·.ticker)).filter
             (fun t => (catalogLookup exOraclesC2.catalog t).isNone),
           containsSubstr t (RAGOrchestrator.query exOraclesC2).1.answer = true)
       ∧ (RAGOrchestrator.query exOraclesC2).2 = []) :=
  ⟨by decide,
   validation_gate_blocks_unknown_tickers exOraclesC2
     ⟨"HYBRID", [⟨"Tesla", "TSLA"⟩, ⟨"Apple", "AAPL"⟩]⟩ rfl (by decide)⟩

/-- The validation answer is never the empty string. -/
theorem validationAnswer_ne_empty (l : List String) (cat : Catalog) :
    validationAnswer l cat ≠ "" := by
  simp only [validationAnswer]
  apply append_ne_empty_of_left
  apply append_ne_empty_of_left
  apply append_ne_empty_of_left
  apply append_ne_empty_of_left
  decide

/-- A `validateCompanies` rejection envelope has `success = false` and a
non-empty answer. -/
theorem validateCompanies_rejects_nonempty {cat : Catalog} {ts : List String}
    {env : Envelope} (h : validateCompanies cat ts = some env) :
    env.success = false ∧ env.answer ≠ "" := by
  simp only [validateCompanies] at h
  split at h
  · cases h
  · split at h
    · cases h
    · cases h
      exact ⟨rfl, validationAnswer_ne_empty _ _⟩

/-- `_handle_quantitative` either succeeds or yields a non-empty answer. -/
theorem handleQuantitative_cases (o : OrchOracles) (ts : List String) :
    (handleQuantitative o ts).1.success = true
    ∨ (handleQuantitative o ts).1.answer ≠ "" := by
  simp only [handleQuantitative]
  split
  · right
    exact append_ne_empty_of_left _ (by decide : sqlFailureAnswerPrefix ≠ "")
  · split
    · right
      exact (by decide : noDataFoundAnswer ≠ "")
    · left
      rfl

/-- `_handle_qualitative` either succeeds or yields a non-empty answer. -/
theorem handleQualitative_cases (o : OrchOracles) (ts : List String) :
    (handleQualitative o ts).1.success = true
    ∨ (handleQualitative o ts).1.answer ≠ "" := by
  simp only [handleQualitative]
  split
  · right
    split
    · exact append_ne_empty_of_left _
        (append_ne_empty_of_left _ (by decide : qualNoInfoScopedPrefix ≠ ""))
    · exact (by decide : qualNoInfoGenericAnswer ≠ "")
  · left
    rfl

/-- `_handle_hybrid` either succeeds or yields a non-empty answer. -/
theorem handleHybrid_cases (o : OrchOracles) (ts : List String) :
    (handleHybrid o ts).1.success = true
    ∨ (handleHybrid o ts).1.answer ≠ "" := by
  simp only [handleHybrid]
  split
  · right
    exact (by decide : hybridNoDataAnswer ≠ "")
  · left
    rfl

/-- Concrete oracles for C3: a QUANTITATIVE query whose structured store
raises, so `execute_sql` reports `success = False` with the raw exception
text in its `error` field. -/
def exOraclesC3 : OrchOracles :=
  { catalog := []
    classifierSvc := .ok ⟨"QUANTITATIVE", []⟩
    sqlGenerated := some "SELECT 1"
    execSql := fun _ =>
      ⟨false, [], [], 0, some "psycopg2.OperationalError: could not connect to server"⟩
    vectorSvc := fun _ => .ok []
    answerSql := "a"
    answerVec := "b"
    answerHybrid := "c" }

/-- C3 counterexample: on the QUANTITATIVE SQL-failure path the envelope
has `success = false` but its answer contains the collaborator's raw
exception text verbatim (the `\n\nError: {...}` suffix of
`_handle_quantitative`), so "never contains raw exception text" fails. -/
theorem failure_answer_contains_raw_error :
    (RAGOrchestrator.query exOraclesC3).1.success = false
    ∧ (RAGOrchestrator.query exOraclesC3).1.errorType = some "SQL_EXECUTION_FAILED"
    ∧ containsSubstr "psycopg2.OperationalError: could not connect to server"
        (RAGOrchestrator.query exOraclesC3).1.answer = true := by
  refine ⟨by decide, by decide, ?_⟩
  have hq : (RAGOrchestrator.query exOraclesC3).1.answer
      = sqlFailureAnswerPrefix
        ++ "psycopg2.OperationalError: could not connect to server" := by
    decide
  rw [hq]
  show hasSub _ _ = true
  rw [String.data_append]
  exact hasSub_append_left _ (hasSub_self _)

/-- Every orchestrator result either succeeds or carries a non-empty
answer. -/
theorem query_success_or_answer_ne (o : OrchOracles) :
    (RAGOrchestrator.query o).1.success = true
    ∨ (RAGOrchestrator.query o).1.answer ≠ "" := by
  rcases hq : RAGOrchestrator.query o with ⟨env, tr⟩
  simp only [RAGOrchestrator.query] at hq
  split at hq
  · rename_i env' hval
    cases hq
    right
    exact (validateCompanies_rejects_nonempty hval).2
  · rename_i hval
    split at hq
    · rcases handleQuantitative_cases o
          (QueryClassifier.classify o.classifierSvc).mentionedTickers with hs | ha
      · left; rw [hq] at hs; exact hs
      · right; rw [hq] at ha; exact ha
    · split at hq
      · rcases handleQualitative_cases o
            (QueryClassifier.classify o.classifierSvc).mentionedTickers with hs | ha
        · left; rw [hq] at hs; exact hs
        · right; rw [hq] at ha; exact ha
      · split at hq
        · rcases handleHybrid_cases o
              (QueryClassifier.classify o.classifierSvc).mentionedTickers with hs | ha
          · left; rw [hq] at hs; exact hs
          · right; rw [hq] at ha; exact ha
        · cases hq
          right
          exact (by decide : unknownRoutingAnswer ≠ "")

/-- `_handle_system_error` marks every envelope as failed. -/
theorem handleSystemError_success (e : String) :
    (handleSystemError e).success = false := by
  simp only [handleSystemError]
  split
  · rfl
  · split
    · rfl
    · split
      · rfl
      · split
        · rfl
        · split
          · rfl
          · rfl

/-- `_handle_system_error` always produces a non-empty canned answer. -/
theorem handleSystemError_answer_ne (e : String) :
    (handleSystemError e).answer ≠ "" := by
  simp only [handleSystemError]
  split
  · exact (by decide : rateLimitAnswer ≠ "")
  · split
    · exact (by decide : quotaExceededAnswer ≠ "")
    · split
      · exact (by decide : apiKeyErrorAnswer ≠ "")
      · split
        · exact (by decide : databaseErrorAnswer ≠ "")
        · split
          · exact (by decide : timeoutErrorAnswer ≠ "")
          · exact (by decide : unexpectedErrorAnswer ≠ "")

/-- C3 amended: on every failure path the envelope's answer is a
non-empty message (and the top-level error boundary always produces a
failure envelope with a non-empty canned answer), but the answer is not
always free of raw collaborator error text: the QUANTITATIVE SQL-failure
path appends the backend's raw error detail after its fixed user-safe
prefix. -/
theorem failure_answers_are_nonempty :
    (∀ o : OrchOracles, (RAGOrchestrator.query o).1.success = false →
       (RAGOrchestrator.query o).1.answer ≠ "")
    ∧ (∀ e : String, (handleSystemError e).success = false
        ∧ (handleSystemError e).answer ≠ "") := by
  constructor
  · intro o hf
    rcases query_success_or_answer_ne o with hs | ha
    · rw [hs] at hf; cases hf
    · exact ha
  · intro e
    exact ⟨handleSystemError_success e, handleSystemError_answer_ne e⟩

/-- C3 amended witness: the concrete failing QUANTITATIVE query above has
a non-empty answer. -/
theorem failure_answers_are_nonempty_witness :
    (RAGOrchestrator.query exOraclesC3).1.success = false
    ∧ (RAGOrchestrator.query exOraclesC3).1.answer ≠ "" :=
  ⟨by decide, failure_answers_are_nonempty.1 exOraclesC3 (by decide)⟩

/-- Concrete pool oracles for C4: the transcript store returns one hit
with similarity 0.1 (below the 0.55 transcript threshold). -/
def exVSOracles : VSOracles :=
  { tenkStore := fun _ _ => []
    trStore := fun _ _ =>
      [⟨"AAPL", 2024, 1, "low-similarity passage", "CEO", mkRat 1 10, "Apple Inc"⟩] }

/-- C4 counterexample: in single-entity scope the transcript store
returns one top-K hit, yet `search_all_sources` (with the repository's
default thresholds 0.45/0.55) drops it — the entity-scoped transcript
path does apply a similarity floor, contradicting the claim that both
pools skip thresholding under entity scope. -/
theorem entity_scoped_transcript_hit_dropped :
    (exVSOracles.trStore (some ["AAPL"]) 5).length = 1
    ∧ VectorSearcher.searchAllSources exVSOracles (some ["AAPL"]) 5
        (mkRat 45 100) (mkRat 55 100) true true = [] := by
  decide

/-- C4 amended: with exactly one entity in scope the filing pool uses the
entity-scoped path with no similarity floor (every store hit is kept),
while the transcript pool, although entity-scoped, still applies its
similarity threshold; broad search (no single entity) applies the
pool-specific thresholds in both pools. -/
theorem single_entity_pool_thresholding (o : VSOracles) (t : String)
    (k : Nat) (thr10k thrTr : ℚ) :
    (searchAllSources10k o (some [t]) k thr10k true).length
        = (o.tenkStore (some [t]) k).length
    ∧ searchAllSourcesTr o (some [t]) k thrTr true
        = ((o.trStore (some [t]) k).filter
            (fun h => thrTr ≤ h.similarity)).map mkTranscriptChunk
    ∧ (searchAllSources10k o none k thr10k true).length
        = ((o.tenkStore none k).filter
            (fun h => thr10k ≤ h.similarity)).length
    ∧ searchAllSourcesTr o none k thrTr true
        = ((o.trStore none k).filter
            (fun h => thrTr ≤ h.similarity)).map mkTranscriptChunk := by
  refine ⟨?_, ?_, ?_, ?_⟩
  · simp [searchAllSources10k, singleCompany, VectorSearcher.searchByCompany]
  · simp [searchAllSourcesTr, singleCompany,
      VectorSearcher.searchTranscriptsByCompany]
  · simp [searchAllSources10k, singleCompany, VectorSearcher.search, tickerArg]
  · simp [searchAllSourcesTr, singleCompany, VectorSearcher.searchTranscripts,
      tickerArg]

/-- Concrete oracles for C5: a HYBRID query whose structured side
succeeds with zero rows while the semantic side returns no passages. -/
def exOraclesC5 : OrchOracles :=
  { catalog := []
    classifierSvc := .ok ⟨"HYBRID", []⟩
    sqlGenerated := some "SELECT 1"
    execSql := fun _ => ⟨true, [], [], 0, none⟩
    vectorSvc := fun _ => .ok []
    answerSql := "a"
    answerVec := "b"
    answerHybrid := "c" }

/-- C5 counterexample: both sides are empty (structured success with zero
rows, no passages), yet the hybrid handler returns `success = true` with
no NO_DATA marker — NO_DATA requires the structured side to have
*failed*, not merely to be empty. -/
theorem hybrid_empty_sides_still_succeed :
    (SQLGenerator.query exOraclesC5.sqlGenerated exOraclesC5.execSql).1.success = true
    ∧ (SQLGenerator.query exOraclesC5.sqlGenerated exOraclesC5.execSql).1.data = []
    ∧ (smartVectorSearch exOraclesC5 []).1 = []
    ∧ (RAGOrchestrator.query exOraclesC5).1.success = true
    ∧ (RAGOrchestrator.query exOraclesC5).1.errorType = none := by
  decide

/-- C5 amended: in HYBRID mode the NO_DATA envelope (success = false)
appears exactly when the structured side failed (success = false) and the
passage list is empty; in every other case — including structured success
with zero rows — the handler returns success = true, attaching
`min 5 (number of passages)` citations whenever passages are
non-empty. -/
theorem hybrid_no_data_exactness (o : OrchOracles) (raw : ClassifierRaw)
    (hsvc : o.classifierSvc = .ok raw) (hqt : raw.queryType = "HYBRID")
    (hval : validateCompanies o.catalog
      (raw.mentionedCompanies.map (·.ticker)) = none) :
    (((RAGOrchestrator.query o).1.success = false
        ∧ (RAGOrchestrator.query o).1.errorType = some "NO_DATA")
      ↔ ((SQLGenerator.query o.sqlGenerated o.execSql).1.success = false
        ∧ (smartVectorSearch o (raw.mentionedCompanies.map (·.ticker))).1 = []))
    ∧ ((smartVectorSearch o (raw.mentionedCompanies.map (·.ticker))).1 ≠ [] →
        (RAGOrchestrator.query o).1.sources.length
          = min 5 (smartVectorSearch o (raw.mentionedCompanies.map (·.ticker))).1.length)
    ∧ (¬ ((SQLGenerator.query o.sqlGenerated o.execSql).1.success = false
        ∧ (smartVectorSearch o (raw.mentionedCompanies.map (·.ticker))).1 = []) →
        (RAGOrchestrator.query o).1.success = true) := by
  have hq : RAGOrchestrator.query o
      = handleHybrid o (raw.mentionedCompanies.map (·.ticker)) := by
    simp [RAGOrchestrator.query, hsvc, QueryClassifier.classify, hval, hqt]
  rw [hq]
  by_cases hc : (SQLGenerator.query o.sqlGenerated o.execSql).1.success = false
      ∧ (smartVectorSearch o (raw.mentionedCompanies.map (·.ticker))).1 = []
  · have hcond : ¬ (SQLGenerator.query o.sqlGenerated o.execSql).1.success = true
        ∧ ((smartVectorSearch o (raw.mentionedCompanies.map (·.ticker))).1.isEmpty = true) := by
      constructor
      · rw [hc.1]; simp
      · rw [hc.2]; rfl
    have hh : handleHybrid o (raw.mentionedCompanies.map (·.ticker))
        = ({ emptyEnvelope with
              success := false
              answer := hybridNoDataAnswer
              queryType := "HYBRID"
              errorType := some "NO_DATA" },
           CallEvent.sqlGen (normalizeCompanies o.catalog
               (raw.mentionedCompanies.map (·.ticker))) ::
             (SQLGenerator.query o.sqlGenerated o.execSql).2.map CallEvent.sqlExec
             ++ [CallEvent.vectorSearch
                  (smartVectorSearch o (raw.mentionedCompanies.map (·.ticker))).2]) := by
      simp only [handleHybrid]
      rw [if_pos hcond]
    rw [hh]
    refine ⟨⟨fun _ => hc, fun _ => ⟨rfl, rfl⟩⟩, ?_, ?_⟩
    · intro hne
      exact absurd hc.2 hne
    · intro hn
      exact absurd hc hn
  · have hcond : ¬ (¬ (SQLGenerator.query o.sqlGenerated o.execSql).1.success = true
        ∧ ((smartVectorSearch o (raw.mentionedCompanies.map (·.ticker))).1.isEmpty = true)) := by
      intro hand
      apply hc
      refine ⟨?_, ?_⟩
      · cases hb : (SQLGenerator.query o.sqlGenerated o.execSql).1.success
        · rfl
        · exact absurd hb hand.1
      · exact List.isEmpty_iff.mp hand.2
    have hh : handleHybrid o (raw.mentionedCompanies.map (·.ticker))
        = ({ emptyEnvelope with
              success := true
              answer := o.answerHybrid
              queryType := "HYBRID"
              sql := (SQLGenerator.query o.sqlGenerated o.execSql).1.sql
              data := (SQLGenerator.query o.sqlGenerated o.execSql).1.data
              sources := buildSources
                (smartVectorSearch o (raw.mentionedCompanies.map (·.ticker))).1
              chunkCount := some
                (smartVectorSearch o (raw.mentionedCompanies.map (·.ticker))).1.length },
           CallEvent.sqlGen (normalizeCompanies o.catalog
               (raw.mentionedCompanies.map (·.ticker))) ::
             (SQLGenerator.query o.sqlGenerated o.execSql).2.map CallEvent.sqlExec
             ++ [CallEvent.vectorSearch
                  (smartVectorSearch o (raw.mentionedCompanies.map (·.ticker))).2]) := by
      simp only [handleHybrid]
      rw [if_neg hcond]
    rw [hh]
    refine ⟨⟨fun hfalse => absurd hfalse.1 (by simp), fun hboth => absurd hboth hc⟩,
      ?_, fun _ => rfl⟩
    intro _
    simp [buildSources, List.length_take]

/-- A transcript passage used by the C5 witness. -/
def exChunkTr : Chunk :=
  { ticker := "AAPL", companyName := "Apple Inc",
    sourceType := some "Earning Call", chunkText := "passage one",
    similarity := mkRat 9 10, fiscalYear := some 2024,
    fiscalQuarter := some 1, speaker := some "CEO", itemLabel := none,
    itemDescription := none, chunkIndex := none,
    sourcePeriod := some "Q1 2024" }

/-- A filing passage used by the C5 witness. -/
def exChunk10k : Chunk :=
  { ticker := "AAPL", companyName := "Apple Inc",
    sourceType := some "10-K Filing", chunkText := "passage two",
    similarity := mkRat 8 10, fiscalYear := some 2024,
    fiscalQuarter := none, speaker := none, itemLabel := some "Item 1A",
    itemDescription := some "Risk Factors", chunkIndex := some 0,
    sourcePeriod := some "FY 2024" }

/-- Oracles for the C5 witness: structured side succeeds with zero rows,
semantic side returns two passages. -/
def exOraclesC5w : OrchOracles :=
  { catalog := []
    classifierSvc := .ok ⟨"HYBRID", []⟩
    sqlGenerated := some "SELECT 1"
    execSql := fun _ => ⟨true, [], [], 0, none⟩
    vectorSvc := fun _ => .ok [exChunkTr, exChunk10k]
    answerSql := "a"
    answerVec := "b"
    answerHybrid := "c" }

/-- C5 amended witness: with zero structured rows but two passages the
hybrid envelope succeeds and carries two citations. -/
theorem hybrid_no_data_exactness_witness :
    validateCompanies exOraclesC5w.catalog
      ((([] : List MentionedCompany)).map (·.ticker)) = none
    ∧ ((((RAGOrchestrator.query exOraclesC5w).1.success = false
          ∧ (RAGOrchestrator.query exOraclesC5w).1.errorType = some "NO_DATA")
        ↔ ((SQLGenerator.query exOraclesC5w.sqlGenerated exOraclesC5w.execSql).1.success = false
          ∧ (smartVectorSearch exOraclesC5w
              (([] : List MentionedCompany).map (·.ticker))).1 = []))
      ∧ ((smartVectorSearch exOraclesC5w
            (([] : List MentionedCompany).map (·.ticker))).1 ≠ [] →
          (RAGOrchestrator.query exOraclesC5w).1.sources.length
            = min 5 (smartVectorSearch exOraclesC5w
                (([] : List MentionedCompany).map (·.ticker))).1.length)
      ∧ (¬ ((SQLGenerator.query exOraclesC5w.sqlGenerated exOraclesC5w.execSql).1.success = false
          ∧ (smartVectorSearch exOraclesC5w
              (([] : List MentionedCompany).map (·.ticker))).1 = []) →
          (RAGOrchestrator.query exOraclesC5w).1.success = true))
    ∧ (RAGOrchestrator.query exOraclesC5w).1.sources.length = 2 :=
  ⟨by decide,
   hybrid_no_data_exactness exOraclesC5w ⟨"HYBRID", []⟩ rfl rfl (by decide),
   by decide⟩

/-! ### QuotaGuard lemmas -/

/-- The store holding exactly the accumulated count of one identity. -/
def soloStore (sid ip : String) (day now k : Nat) : SessionStore :=
  if k = 0 then [] else [⟨sid, ip, k, day, now⟩]

theorem checkDb_solo_step (sid ip : String) (day now k : Nat) (hk : k < 30) :
    checkAndIncrementDb (soloStore sid ip day now k) sid ip day now
      = (⟨true, none, k + 1, k + 1⟩, soloStore sid ip day now (k + 1)) := by
  cases k with
  | zero =>
      simp only [soloStore, if_pos rfl]
      rfl
  | succ m =>
      have hm : m + 1 < 30 := hk
      simp only [soloStore, if_neg (Nat.succ_ne_zero m)]
      have hlook : sessionLookup [⟨sid, ip, m + 1, day, now⟩] sid day
          = some (m + 1) := by
        simp [sessionLookup]
      have hsum : ipSum [⟨sid, ip, m + 1, day, now⟩] ip day = m + 1 := by
        simp [ipSum]
      simp only [checkAndIncrementDb, hlook, hsum, Option.getD_some]
      rw [if_neg (by simp only [SESSION_DAILY_LIMIT]; omega),
          if_neg (by simp only [IP_DAILY_LIMIT]; omega)]
      simp

theorem checkDb_solo_reject (sid ip : String) (day now k : Nat)
    (hk : 30 ≤ k) (h0 : k ≠ 0) :
    checkAndIncrementDb (soloStore sid ip day now k) sid ip day now
      = (⟨false, some "session", k, k⟩, soloStore sid ip day now k) := by
  have hlook : sessionLookup (soloStore sid ip day now k) sid day = some k := by
    simp [soloStore, if_neg h0, sessionLookup]
  have hsum : ipSum (soloStore sid ip day now k) ip day = k := by
    simp [soloStore, if_neg h0, ipSum]
  simp only [checkAndIncrementDb, hlook, hsum, Option.getD_some]
  rw [if_pos (by simp only [SESSION_DAILY_LIMIT]; omega)]

theorem checkDb_solo_other (sid alt ip : String) (day now k : Nat)
    (hne : sid ≠ alt) (hk : k < 1000) :
    (checkAndIncrementDb (soloStore sid ip day now k) alt ip day now).1
      = ⟨true, none, 1, k + 1⟩ := by
  cases k with
  | zero =>
      simp only [soloStore, if_pos rfl]
      rfl
  | succ m =>
      simp only [soloStore, if_neg (Nat.succ_ne_zero m)]
      have hlook : sessionLookup [⟨sid, ip, m + 1, day, now⟩] alt day = none := by
        simp [sessionLookup, List.filter, beq_eq_false_iff_ne.mpr hne]
      have hsum : ipSum [⟨sid, ip, m + 1, day, now⟩] ip day = m + 1 := by
        simp [ipSum]
      simp only [checkAndIncrementDb, hlook, hsum, Option.getD_none]
      rw [if_neg (by simp only [SESSION_DAILY_LIMIT]; omega),
          if_neg (by simp only [IP_DAILY_LIMIT]; omega)]

theorem iterCheck_solo (sid ip : String) (day now : Nat) :
    ∀ n k, k + n ≤ 30 →
      (iterCheck sid ip day now n (soloStore sid ip day now k)).1
        = soloStore sid ip day now (k + n)
      ∧ ∀ r ∈ (iterCheck sid ip day now n (soloStore sid ip day now k)).2,
          r.allowed = true := by
  intro n
  induction n with
  | zero =>
      intro k hk
      exact ⟨rfl, by simp [iterCheck]⟩
  | succ m ih =>
      intro k hk
      have hklt : k < 30 := by omega
      have hstep := checkDb_solo_step sid ip day now k hklt
      have hrest := ih (k + 1) (by omega)
      constructor
      · show (iterCheck sid ip day now m
            (checkAndIncrementDb (soloStore sid ip day now k) sid ip day now).2).1
          = soloStore sid ip day now (k + (m + 1))
        rw [hstep]
        have : k + (m + 1) = (k + 1) + m := by omega
        rw [this]
        exact hrest.1
      · intro r hr
        simp only [iterCheck] at hr
        rw [hstep] at hr
        rcases List.mem_cons.mp hr with rfl | hmem
        · rfl
        · exact hrest.2 r hmem

/-- C6: starting from an empty store, the first 30 admissions of one
identity on one day all return allowed = true; the 31st for the same
identity returns allowed = false with limit_type "session", while a
simultaneous 31st admission for a different session identity (same IP,
below the IP limit) is still admitted. -/
theorem session_daily_limit_boundary (sid alt ip : String) (day now : Nat)
    (hne : sid ≠ alt) :
    (∀ r ∈ (iterCheck sid ip day now 30 []).2, r.allowed = true)
    ∧ (checkAndIncrementDb (iterCheck sid ip day now 30 []).1
        sid ip day now).1.allowed = false
    ∧ (checkAndIncrementDb (iterCheck sid ip day now 30 []).1
        sid ip day now).1.limitType = some "session"
    ∧ (checkAndIncrementDb (iterCheck sid ip day now 30 []).1
        alt ip day now).1.allowed = true
    ∧ (checkAndIncrementDb (iterCheck sid ip day now 30 []).1
        alt ip day now).1.limitType = none := by
  have hrun := iterCheck_solo sid ip day now 30 0 (by omega)
  have hempty : soloStore sid ip day now 0 = [] := rfl
  rw [hempty] at hrun
  have hstore : (iterCheck sid ip day now 30 []).1
      = soloStore sid ip day now 30 := hrun.1
  refine ⟨hrun.2, ?_, ?_, ?_, ?_⟩
  · rw [hstore, checkDb_solo_reject sid ip day now 30 (by omega) (by omega)]
  · rw [hstore, checkDb_solo_reject sid ip day now 30 (by omega) (by omega)]
  · rw [hstore, checkDb_solo_other sid alt ip day now 30 hne (by omega)]
  · rw [hstore, checkDb_solo_other sid alt ip day now 30 hne (by omega)]

/-- C6 witness: the boundary at concrete identities and day. -/
theorem session_daily_limit_boundary_witness :
    ("s1" : String) ≠ "s2"
    ∧ ((∀ r ∈ (iterCheck "s1" "ip" 0 0 30 []).2, r.allowed = true)
       ∧ (checkAndIncrementDb (iterCheck "s1" "ip" 0 0 30 []).1
           "s1" "ip" 0 0).1.allowed = false
       ∧ (checkAndIncrementDb (iterCheck "s1" "ip" 0 0 30 []).1
           "s1" "ip" 0 0).1.limitType = some "session"
       ∧ (checkAndIncrementDb (iterCheck "s1" "ip" 0 0 30 []).1
           "s2" "ip" 0 0).1.allowed = true
       ∧ (checkAndIncrementDb (iterCheck "s1" "ip" 0 0 30 []).1
           "s2" "ip" 0 0).1.limitType = none) :=
  ⟨by decide, session_daily_limit_boundary "s1" "s2" "ip" 0 0 (by decide)⟩

/-- C7: `check_and_increment` is fail-open — whenever the database
interaction raises instead of completing, the caught error yields
allowed = true with limit_type = None; a request is blocked only by a
completed database interaction. -/
theorem quota_check_fail_open :
    (∀ e : Unit, RateLimiter.checkAndIncrement (.error e)
      = ⟨true, none, 0, 0⟩)
    ∧ (∀ dbOutcome : Except Unit (RLResult × SessionStore),
        (RateLimiter.checkAndIncrement dbOutcome).allowed = false →
        ∃ r st, dbOutcome = .ok (r, st)) := by
  constructor
  · intro e
    rfl
  · intro dbOutcome hblocked
    match dbOutcome with
    | .ok (r, st) => exact ⟨r, st, rfl⟩
    | .error e => cases hblocked

/-- C7 witness: a blocked outcome can only arise from a completed
database transaction. -/
theorem quota_check_fail_open_witness :
    (RateLimiter.checkAndIncrement
      (.ok (⟨false, some "session", 30, 30⟩, ([] : SessionStore)))).allowed = false
    ∧ ∃ r st, (Except.ok (⟨false, some "session", 30, 30⟩, ([] : SessionStore))
        : Except Unit (RLResult × SessionStore)) = .ok (r, st) :=
  ⟨by decide,
   quota_check_fail_open.2
     (.ok (⟨false, some "session", 30, 30⟩, ([] : SessionStore))) (by decide)⟩

/-- C10: a rejected admission (allowed = false, session or IP limit)
leaves the quota store completely unchanged — no count increment, no
timestamp update; the write happens only on the allowed path. -/
theorem rejected_request_consumes_no_quota (st : SessionStore)
    (sid ip : String) (day now : Nat)
    (h : (checkAndIncrementDb st sid ip day now).1.allowed = false) :
    (checkAndIncrementDb st sid ip day now).2 = st := by
  by_cases h1 : (sessionLookup st sid day).getD 0 ≥ SESSION_DAILY_LIMIT
  · simp only [checkAndIncrementDb, if_pos h1]
  · by_cases h2 : ipSum st ip day ≥ IP_DAILY_LIMIT
    · simp only [checkAndIncrementDb, if_neg h1, if_pos h2]
    · exfalso
      have hallowed : (checkAndIncrementDb st sid ip day now).1.allowed = true := by
        simp only [checkAndIncrementDb, if_neg h1, if_neg h2]
      rw [hallowed] at h
      cases h

/-- C10 witness: at the session limit the store is untouched by the
rejected call. -/
theorem rejected_request_consumes_no_quota_witness :
    (checkAndIncrementDb [⟨"s1", "ip", 30, 0, 0⟩] "s1" "ip" 0 0).1.allowed = false
    ∧ (checkAndIncrementDb [⟨"s1", "ip", 30, 0, 0⟩] "s1" "ip" 0 0).2
        = [⟨"s1", "ip", 30, 0, 0⟩] :=
  ⟨by decide,
   rejected_request_consumes_no_quota [⟨"s1", "ip", 30, 0, 0⟩] "s1" "ip" 0 0
     (by decide)⟩

/-- The parameters `_smart_vector_search` hands to `search_all_sources`
depend only on the mentioned-ticker count. -/
theorem smartVectorSearch_rec (o : OrchOracles) (ts : List String) :
    (smartVectorSearch o ts).2
      = (if ts.length == 1 then (⟨some ts, 5, true, true⟩ : VectorCallRec)
         else if ts.length > 1 then ⟨some ts, 10, true, true⟩
         else ⟨none, 10, true, true⟩) := by
  simp only [smartVectorSearch]
  split <;> rfl

/-- C8: when the classification service raises, the classifier returns
the fixed fallback (HYBRID, no companies, no tickers) from its single
service invocation, and the orchestrator proceeds down the HYBRID path,
invoking both the structured backend and a discovery-mode semantic
search instead of aborting. -/
theorem classifier_failure_falls_back_to_hybrid
    (cat : Catalog) (gen : Option String) (store : String → ExecResult)
    (vec : VectorCallRec → Except Unit (List Chunk)) (a1 a2 a3 : String) :
    QueryClassifier.classify (.error ()) = fallbackClassification
    ∧ (RAGOrchestrator.query
        ⟨cat, .error (), gen, store, vec, a1, a2, a3⟩).1.queryType = "HYBRID"
    ∧ CallEvent.sqlGen [] ∈ (RAGOrchestrator.query
        ⟨cat, .error (), gen, store, vec, a1, a2, a3⟩).2
    ∧ CallEvent.vectorSearch ⟨none, 10, true, true⟩ ∈ (RAGOrchestrator.query
        ⟨cat, .error (), gen, store, vec, a1, a2, a3⟩).2 := by
  have hq : RAGOrchestrator.query ⟨cat, .error (), gen, store, vec, a1, a2, a3⟩
      = handleHybrid ⟨cat, .error (), gen, store, vec, a1, a2, a3⟩ [] := by
    simp [RAGOrchestrator.query, QueryClassifier.classify,
      fallbackClassification, validateCompanies]
  have hrec : (smartVectorSearch
      ⟨cat, .error (), gen, store, vec, a1, a2, a3⟩ []).2
      = ⟨none, 10, true, true⟩ := by
    rw [smartVectorSearch_rec]
    rfl
  refine ⟨rfl, ?_, ?_, ?_⟩
  · rw [hq]
    simp only [handleHybrid]
    split <;> rfl
  · rw [hq]
    simp only [handleHybrid]
    split <;>
      exact List.mem_cons_self _ _
  · rw [hq]
    simp only [handleHybrid]
    split <;>
    · apply List.mem_cons_of_mem
      apply List.mem_append_right
      rw [hrec]
      exact List.mem_singleton.mpr rfl

/-- The semantic-search invocations recorded in a trace. -/
def vectorCalls (tr : List CallEvent) : List VectorCallRec :=
  tr.filterMap fun e =>
    match e with
    | .vectorSearch r => some r
    | _ => none

theorem vectorCalls_sqlExec (l : List String) :
    vectorCalls (l.map CallEvent.sqlExec) = [] := by
  induction l with
  | nil => rfl
  | cons a t ih => exact ih

theorem vectorCalls_append (l1 l2 : List CallEvent) :
    vectorCalls (l1 ++ l2) = vectorCalls l1 ++ vectorCalls l2 := by
  simp [vectorCalls, List.filterMap_append]

theorem vectorCalls_singleton (rec' : VectorCallRec) :
    vectorCalls [CallEvent.vectorSearch rec'] = [rec'] := rfl

theorem vectorCalls_hybrid_events (cds : List CompanyDict) (xs : List String)
    (rec' : VectorCallRec) :
    vectorCalls (CallEvent.sqlGen cds ::
      (xs.map CallEvent.sqlExec ++ [CallEvent.vectorSearch rec'])) = [rec'] := by
  have h1 : vectorCalls (CallEvent.sqlGen cds ::
      (xs.map CallEvent.sqlExec ++ [CallEvent.vectorSearch rec']))
      = vectorCalls (xs.map CallEvent.sqlExec
          ++ [CallEvent.vectorSearch rec']) := rfl
  rw [h1, vectorCalls_append, vectorCalls_sqlExec, vectorCalls_singleton]
  rfl

/-- C9: for every semantic (QUALITATIVE) or HYBRID query that passes
validation, the trace contains exactly one `search_all_sources` call,
scoped and sized by the breadth policy: one ticker → that ticker with
top_k = 5; several tickers → those tickers with top_k = 10; no tickers →
unscoped with top_k = 10 — both pools enabled in every case. -/
theorem search_breadth_policy (o : OrchOracles) (raw : ClassifierRaw)
    (hsvc : o.classifierSvc = .ok raw)
    (hqt : raw.queryType = "QUALITATIVE" ∨ raw.queryType = "HYBRID")
    (hval : validateCompanies o.catalog
      (raw.mentionedCompanies.map (·.ticker)) = none) :
    vectorCalls (RAGOrchestrator.query o).2
      = [if (raw.mentionedCompanies.map (·.ticker)).length = 1 then
           ⟨some (raw.mentionedCompanies.map (·.ticker)), 5, true, true⟩
         else if 1 < (raw.mentionedCompanies.map (·.ticker)).length then
           ⟨some (raw.mentionedCompanies.map (·.ticker)), 10, true, true⟩
         else ⟨none, 10, true, true⟩] := by
  have hpol : (smartVectorSearch o (raw.mentionedCompanies.map (·.ticker))).2
      = (if (raw.mentionedCompanies.map (·.ticker)).length = 1 then
           (⟨some (raw.mentionedCompanies.map (·.ticker)), 5, true, true⟩ : VectorCallRec)
         else if 1 < (raw.mentionedCompanies.map (·.ticker)).length then
           ⟨some (raw.mentionedCompanies.map (·.ticker)), 10, true, true⟩
         else ⟨none, 10, true, true⟩) := by
    rw [smartVectorSearch_rec]
    by_cases h1 : (raw.mentionedCompanies.map (·.ticker)).length = 1
    · simp [h1]
    · by_cases h2 : 1 < (raw.mentionedCompanies.map (·.ticker)).length
      · simp [h1, h2]
      · simp [h1, h2]
  rcases hqt with hqt | hqt
  · have hq : RAGOrchestrator.query o
        = handleQualitative o (raw.mentionedCompanies.map (·.ticker)) := by
      simp [RAGOrchestrator.query, hsvc, QueryClassifier.classify, hval, hqt]
    rw [hq]
    simp only [handleQualitative]
    split <;>
      exact (vectorCalls_singleton _).trans (congrArg (fun r => [r]) hpol)
  · have hq : RAGOrchestrator.query o
        = handleHybrid o (raw.mentionedCompanies.map (·.ticker)) := by
      simp [RAGOrchestrator.query, hsvc, QueryClassifier.classify, hval, hqt]
    rw [hq]
    simp only [handleHybrid]
    split <;>
      exact (vectorCalls_hybrid_events _ _ _).trans (congrArg (fun r => [r]) hpol)

/-- Oracles for the C9 witness: a QUALITATIVE query mentioning exactly
one known ticker. -/
def exOraclesC9 : OrchOracles :=
  { catalog := [("AAPL", "Apple Inc")]
    classifierSvc := .ok ⟨"QUALITATIVE", [⟨"Apple", "AAPL"⟩]⟩
    sqlGenerated := some "SELECT 1"
    execSql := trivialStore
    vectorSvc := fun _ => .ok []
    answerSql := "a"
    answerVec := "b"
    answerHybrid := "c" }

/-- C9 witness: with one mentioned ticker the recorded semantic call is
scoped to it with top_k = 5 and both pools enabled. -/
theorem search_breadth_policy_witness :
    (("QUALITATIVE" : String) = "QUALITATIVE" ∨ ("QUALITATIVE" : String) = "HYBRID")
    ∧ validateCompanies exOraclesC9.catalog
        (([⟨"Apple", "AAPL"⟩] : List MentionedCompany).map (·.ticker)) = none
    ∧ vectorCalls (RAGOrchestrator.query exOraclesC9).2
        = [if (([⟨"Apple", "AAPL"⟩] : List MentionedCompany).map (·.ticker)).length = 1 then
             ⟨some (([⟨"Apple", "AAPL"⟩] : List MentionedCompany).map (·.ticker)), 5, true, true⟩
           else if 1 < (([⟨"Apple", "AAPL"⟩] : List MentionedCompany).map (·.ticker)).length then
             ⟨some (([⟨"Apple", "AAPL"⟩] : List MentionedCompany).map (·.ticker)), 10, true, true⟩
           else ⟨none, 10, true, true⟩] :=
  ⟨Or.inl rfl, by decide,
   search_breadth_policy exOraclesC9 ⟨"QUALITATIVE", [⟨"Apple", "AAPL"⟩]⟩
     rfl (Or.inl rfl) (by decide)⟩

end StockScreener
